import Mathlib

/-!
Verification development for the IVR automation repository.

The definitions below are a shallow embedding of the JavaScript sources:
`lib/ivr_state_tracker_fixed.js` (state taxonomy, classifier, transition
tracker, action policy) and the integration module's
`runAutomatedNavigation` (multi-digit dispatch protocol and session
driver loop).  Strings are modelled by Lean `String`, JavaScript objects
keyed by state by association lists or functions, and the remote
endpoint by an oracle assigning to each request leg the plain-text
prompt extracted from its response.
-/

namespace IvrAutomation

/-- Decimal digit test: the character class used by the JavaScript
regexes over DTMF input. -/
def isDigitChar (c : Char) : Bool := decide ('0' ≤ c) && decide (c ≤ '9')

/-- Boolean list-prefix test on characters. -/
def listPrefixOf : List Char → List Char → Bool
  | [], _ => true
  | _ :: _, [] => false
  | a :: as, b :: bs => a == b && listPrefixOf as bs

/-- Boolean contiguous-sublist test on characters. -/
def listInfixOf (pat : List Char) : List Char → Bool
  | [] => pat.isEmpty
  | b :: bs => listPrefixOf pat (b :: bs) || listInfixOf pat bs

/-- JavaScript `s.includes(pat)`: substring containment. -/
def strIncludes (s pat : String) : Bool := listInfixOf pat.toList s.toList

/-- JavaScript `s.toLowerCase()` (ASCII, which covers every pattern and
input in the source). -/
def strLower (s : String) : String := String.mk (s.toList.map Char.toLower)

/-- JavaScript `s.trim()`: strip leading and trailing whitespace. -/
def strTrim (s : String) : String :=
  String.mk (((s.toList.dropWhile Char.isWhitespace).reverse.dropWhile
    Char.isWhitespace).reverse)

/-- JavaScript `s.charAt(0)`: one-character string, or empty when `s` is empty. -/
def charAt0 (s : String) : String :=
  match s.toList with
  | [] => ""
  | c :: _ => String.mk [c]

/-- JavaScript `s.substring(1)`: everything after the first character. -/
def strTail (s : String) : String := String.mk s.toList.tail

/-- JavaScript regex test `^\d+$`. -/
def isAllDigits (s : String) : Bool := 1 ≤ s.length && s.toList.all isDigitChar

/-- JavaScript regex test `^\d{2,}$`. -/
def isMultiDigit (s : String) : Bool := 2 ≤ s.length && s.toList.all isDigitChar

/-- JavaScript `s.match(/\d+/)`: the first maximal run of digits, if any. -/
def firstDigitRun (s : String) : Option String :=
  match s.toList.dropWhile (fun c => !isDigitChar c) with
  | [] => none
  | c :: cs => some (String.mk ((c :: cs).takeWhile isDigitChar))

/-- The closed state taxonomy `IVR_STATES` of the fixed state tracker. -/
inductive IvrState
  | greeting
  | main_menu
  | refill_prescription
  | check_status
  | prescriber_menu
  | pharmacy_hours
  | weekly_hours
  | leave_message
  | home_delivery
  | repeat_options
  | transfer_to_pharmacy
  | enter_rx_number
  | confirm_rx
  | invalid_selection
  | unknown
  deriving DecidableEq

/-- The string value of each state constant in `IVR_STATES`. -/
def stateName : IvrState → String
  | .greeting => "greeting"
  | .main_menu => "main_menu"
  | .refill_prescription => "refill_prescription"
  | .check_status => "check_status"
  | .prescriber_menu => "prescriber_menu"
  | .pharmacy_hours => "pharmacy_hours"
  | .weekly_hours => "weekly_hours"
  | .leave_message => "leave_message"
  | .home_delivery => "home_delivery"
  | .repeat_options => "repeat_options"
  | .transfer_to_pharmacy => "transfer_to_pharmacy"
  | .enter_rx_number => "enter_rx_number"
  | .confirm_rx => "confirm_rx"
  | .invalid_selection => "invalid_selection"
  | .unknown => "unknown"

/-- The static classification table `STATE_PATTERNS`, in taxonomy
declaration order.  Pattern strings are verbatim from the source
(`\x27` is the apostrophe). -/
def STATE_PATTERNS : List (IvrState × List String) :=
  [ (.greeting,
      ["global greeting",
       "welcome to",
       "Thank you for calling"]),
    (.main_menu,
      ["To refill a prescription, press 1",
       "To check the status of a prescription, press 2",
       "If you are a prescriber, press 3",
       "To hear pharmacy hours and information, press 4",
       "To leave a message, press 5",
       "For our home delivery service, press 7",
       "To repeat these options, press 8",
       "To speak to the pharmacy, press 9"]),
    (.refill_prescription,
      ["Please enter the prescription number",
       "Enter the prescription number you would like to refill"]),
    (.check_status,
      ["Please enter the prescription number you would like to check",
       "Enter the prescription number to check status"]),
    (.prescriber_menu,
      ["For new prescriptions or to authorize refills, press 1",
       "To transfer to the pharmacy, press 2",
       "If you are a prescriber"]),
    (.pharmacy_hours,
      ["Today we\x27re open until",
       "Press 1 for our weekly hours",
       "pharmacy hours and information"]),
    (.weekly_hours,
      ["Our normal business hours",
       "Monday from",
       "Tuesday from"]),
    (.leave_message,
      ["leave your message after the tone",
       "leave a message",
       "After you\x27re finished with your message"]),
    (.home_delivery,
      ["home delivery service",
       "mail order",
       "delivery service"]),
    (.repeat_options,
      ["repeat these options",
       "repeat the menu",
       "hear the options again"]),
    (.transfer_to_pharmacy,
      ["transferring you",
       "connect you",
       "speak to the pharmacy"]),
    (.enter_rx_number,
      ["enter the prescription number",
       "Please enter the prescription",
       "Enter your prescription"]),
    (.confirm_rx,
      ["confirm",
       "Is this correct",
       "Press 1 to confirm"]),
    (.invalid_selection,
      ["You entered an invalid selection",
       "invalid option",
       "not a valid selection"]) ]

/-- The legal-successor table `STATE_TRANSITIONS`. -/
def STATE_TRANSITIONS : IvrState → List IvrState
  | .greeting => [.main_menu]
  | .main_menu =>
      [.refill_prescription, .check_status, .prescriber_menu, .pharmacy_hours,
       .leave_message, .home_delivery, .repeat_options, .transfer_to_pharmacy,
       .invalid_selection, .main_menu]
  | .refill_prescription => [.enter_rx_number, .main_menu]
  | .check_status => [.enter_rx_number, .main_menu]
  | .prescriber_menu => [.transfer_to_pharmacy, .main_menu]
  | .pharmacy_hours => [.weekly_hours, .main_menu]
  | .weekly_hours => [.main_menu]
  | .leave_message => [.main_menu]
  | .home_delivery => [.main_menu]
  | .repeat_options => [.main_menu]
  | .transfer_to_pharmacy => []
  | .enter_rx_number => [.confirm_rx, .main_menu]
  | .confirm_rx => [.main_menu, .transfer_to_pharmacy]
  | .invalid_selection => [.main_menu]
  | .unknown =>
      [.greeting, .main_menu, .refill_prescription, .check_status,
       .prescriber_menu, .pharmacy_hours, .weekly_hours, .leave_message,
       .home_delivery, .repeat_options, .transfer_to_pharmacy,
       .enter_rx_number, .confirm_rx, .invalid_selection, .unknown]

/-- The per-state DTMF candidate table `STATE_DTMF_OPTIONS`; `none` models
a state without an entry in the JavaScript object. -/
def STATE_DTMF_OPTIONS : IvrState → Option (List String)
  | .main_menu => some ["1", "2", "3", "4", "5", "7", "8", "9"]
  | .pharmacy_hours => some ["1", "2", "9"]
  | .weekly_hours => some ["9"]
  | .prescriber_menu => some ["1", "2"]
  | .confirm_rx => some ["1", "2"]
  | .leave_message => some ["#"]
  | .repeat_options => some ["1", "2", "3", "4", "5", "7", "8", "9"]
  | .home_delivery => some ["9"]
  | .unknown => some ["1", "2", "3", "4", "5", "6", "7", "8", "9", "0", "*", "#"]
  | _ => none

/-- The hand-ordered disambiguation rules at the top of
`identifyState`, applied to the lowercased text before the generic
pattern scan; `none` means no special rule fires. -/
def specialCaseResult (prev : Option IvrState) (lowerText : String) : Option IvrState :=
  if strIncludes lowerText "please enter the prescription number" then
    some (if strIncludes lowerText "refill" || prev == some .refill_prescription then
            .refill_prescription
          else if strIncludes lowerText "status" || prev == some .check_status then
            .check_status
          else .enter_rx_number)
  else if strIncludes lowerText "for new prescriptions or to authorize refills" then
    some .prescriber_menu
  else if strIncludes lowerText "leave your message after the tone" then
    some .leave_message
  else if strIncludes lowerText "invalid selection" then
    some .invalid_selection
  else none

/-- Scan a pattern table in order; return the first state one of whose
patterns is contained (case-insensitively) in the lowercased text. -/
def scanTable (lowerText : String) : List (IvrState × List String) → Option IvrState
  | [] => none
  | (s, pats) :: rest =>
      if pats.any (fun p => strIncludes lowerText (strLower p)) then some s
      else scanTable lowerText rest

/-- `FixedIvrStateTracker.identifyState`: classify a response text into a
state, given the previous state and the runtime-discovered pattern
registry. -/
def identifyState (prev : Option IvrState) (discovered : List (IvrState × List String))
    (responseText : String) : IvrState :=
  if responseText = "" then .unknown
  else
    let lowerText := strLower responseText
    match specialCaseResult prev lowerText with
    | some s => s
    | none =>
        match scanTable lowerText STATE_PATTERNS with
        | some s => s
        | none =>
            match scanTable lowerText discovered with
            | some s => s
            | none => .unknown

/-- The mutable per-call state of `FixedIvrStateTracker`.  The transition
tally (a nested object of counters in the source, missing keys reading
as zero) is modelled as a function into `Nat`; the discovered-state set
and discovered-pattern registry keep JavaScript insertion order as
lists. -/
structure Session where
  currentState : IvrState
  previousState : Option IvrState
  stateHistory : List IvrState
  stateTransitions : IvrState → IvrState → Nat
  discoveredStates : List IvrState
  discoveredPatterns : List (IvrState × List String)

/-- The tracker as built by the constructor. -/
def initialSession : Session :=
  { currentState := .unknown
    previousState := none
    stateHistory := []
    stateTransitions := fun _ _ => 0
    discoveredStates := []
    discoveredPatterns := [] }

/-- JavaScript `Set.add`: append when absent, keep insertion order. -/
def addToSet (l : List IvrState) (x : IvrState) : List IvrState :=
  if x ∈ l then l else l ++ [x]

/-- Increment one cell of the transition tally. -/
def bumpTally (t : IvrState → IvrState → Nat) (a b : IvrState) :
    IvrState → IvrState → Nat :=
  fun x y => if x = a ∧ y = b then t x y + 1 else t x y

/-- The legality test in `updateState`:
`validTransitions.includes(newState) || this.currentState === IVR_STATES.UNKNOWN`. -/
def isValidTransition (cur ns : IvrState) : Bool :=
  decide (ns ∈ STATE_TRANSITIONS cur) || decide (cur = IvrState.unknown)

/-- What `updateState` logs about the recorded transition: nothing for a
self-loop, a normal line for a legal transition, a warning for an
illegal one. -/
inductive TransitionSignal
  | noChange
  | legal
  | illegal
  deriving DecidableEq

/-- The state-update half of `FixedIvrStateTracker.updateState`, applied
to an already classified state. -/
def updateStateCore (s : Session) (newState : IvrState) : Session × TransitionSignal :=
  let s1 := { s with discoveredStates := addToSet s.discoveredStates newState }
  let valid := isValidTransition s.currentState newState
  if newState ≠ s.currentState then
    let s2 :=
      if s.currentState ≠ IvrState.unknown then
        { s1 with stateTransitions := bumpTally s1.stateTransitions s.currentState newState }
      else s1
    let s3 :=
      { s2 with
        previousState := some s.currentState
        currentState := newState
        stateHistory := s2.stateHistory ++ [newState] }
    (s3, if valid then .legal else .illegal)
  else
    (s1, .noChange)

/-- `FixedIvrStateTracker.updateState`: classify the response text, then
record the result.  The JavaScript method returns `this.currentState`,
which is `(updateState s t).1.currentState` here. -/
def updateState (s : Session) (responseText : String) : Session × TransitionSignal :=
  updateStateCore s (identifyState s.previousState s.discoveredPatterns responseText)

/-- Lookup in the discovered-pattern registry (JavaScript property read,
`none` for a missing key). -/
def regLookup (reg : List (IvrState × List String)) (st : IvrState) :
    Option (List String) :=
  match reg.find? (fun e => e.1 == st) with
  | some e => some e.2
  | none => none

/-- `FixedIvrStateTracker.addStatePattern`: create the entry when the key
is missing, then push the pattern only when it is not already present. -/
def addStatePattern (reg : List (IvrState × List String)) (st : IvrState)
    (pat : String) : List (IvrState × List String) :=
  let reg1 :=
    match regLookup reg st with
    | some _ => reg
    | none => reg ++ [(st, [])]
  reg1.map (fun e =>
    if e.1 = st then (e.1, if pat ∈ e.2 then e.2 else e.2 ++ [pat]) else e)

/-- Pattern `pat` is registered for state `st`. -/
def regMem (reg : List (IvrState × List String)) (st : IvrState) (pat : String) : Prop :=
  ∃ l, (st, l) ∈ reg ∧ pat ∈ l

/-- The action objects returned by `getNextAction`. -/
structure IvrAction where
  action : String
  input : String
  description : String
  deriving DecidableEq

/-- The scripted (normal-mode) switch of `getNextAction`: one branch per
state, `unknown` falling to the default branch. -/
def normalAction : IvrState → IvrAction
  | .greeting => ⟨"continue", "", "Continuing from greeting"⟩
  | .main_menu => ⟨"hours", "4", "Selecting pharmacy hours"⟩
  | .pharmacy_hours => ⟨"weekly", "1", "Selecting weekly hours"⟩
  | .weekly_hours => ⟨"back", "9", "Returning to main menu"⟩
  | .refill_prescription => ⟨"default", "0001234", "Entering prescription number"⟩
  | .enter_rx_number => ⟨"default", "0001234", "Entering prescription number"⟩
  | .check_status => ⟨"default", "0001234", "Entering prescription number for status"⟩
  | .confirm_rx => ⟨"confirm", "1", "Confirming prescription"⟩
  | .prescriber_menu => ⟨"transfer", "2", "Transferring to pharmacy"⟩
  | .leave_message => ⟨"finish", "#", "Finishing message"⟩
  | .home_delivery => ⟨"back", "9", "Returning to main menu"⟩
  | .repeat_options => ⟨"hours", "4", "Selecting pharmacy hours after repeat"⟩
  | .transfer_to_pharmacy => ⟨"default", "", "Waiting during transfer"⟩
  | .invalid_selection => ⟨"default", "9", "Returning to main menu after invalid selection"⟩
  | .unknown => ⟨"default", "", "Default action for unknown state"⟩

/-- `STATE_DTMF_OPTIONS[this.currentState] || STATE_DTMF_OPTIONS[IVR_STATES.UNKNOWN]`. -/
def dtmfOptionsFor (s : IvrState) : List String :=
  match STATE_DTMF_OPTIONS s with
  | some l => l
  | none =>
      match STATE_DTMF_OPTIONS IvrState.unknown with
      | some l => l
      | none => []

/-- `FixedIvrStateTracker.getNextAction` for the current state, traversal
mode and exploration depth. -/
def getNextAction (cur : IvrState) (mode : String) (explorationDepth : Nat) : IvrAction :=
  if mode = "explore" then
    let dtmfOptions := dtmfOptionsFor cur
    if 0 < dtmfOptions.length then
      let optionIndex := explorationDepth % dtmfOptions.length
      { action := "explore"
        input := dtmfOptions.getD optionIndex ""
        description := "Exploring option " ++ dtmfOptions.getD optionIndex ""
          ++ " in state " ++ stateName cur }
    else normalAction cur
  else normalAction cur

/-- One step's interaction with the endpoint: the inputs of the request
legs performed, in order, and the prompt the step ends up with.  The
remote endpoint is modelled by an oracle `env` assigning to the `n`-th
leg of the call the plain text extracted from its response
(`extractTextFromResponse` is deterministic, so folding it into the
oracle is faithful). -/
structure DispatchOut where
  legs : List String
  prompt : String
  deriving DecidableEq

/-- The action-delivery portion of `IvrIntegration.runAutomatedNavigation`
(the dispatch protocol): DTMF branch with multi-digit splitting and
in-dispatch blank recovery, non-DTMF branch with digit extraction, and
the final prompt extraction.  `k` is the index of the first leg this
dispatch performs. -/
def dispatchLegs (action : String) (env : Nat → String) (k : Nat) : DispatchOut :=
  if isAllDigits action || action == "*" || action == "#" then
    if isMultiDigit action then
      let firstDigit := charAt0 action
      let remainingDigits := strTail action
      if strTrim (env (k + 1)) = "" then
        { legs := [firstDigit, remainingDigits, ""], prompt := env (k + 2) }
      else
        { legs := [firstDigit, remainingDigits], prompt := env (k + 1) }
    else
      { legs := [action], prompt := env k }
  else
    match firstDigitRun action with
    | some digits =>
        if 1 < digits.length then
          let firstDigit := charAt0 digits
          let remainingDigits := strTail digits
          if strTrim (env (k + 1)) = "" then
            { legs := [firstDigit, remainingDigits, ""], prompt := env (k + 2) }
          else
            { legs := [firstDigit, remainingDigits], prompt := env (k + 1) }
        else
          { legs := [digits], prompt := env k }
    | none =>
        { legs := [charAt0 action], prompt := env k }

/-- A full driver step's legs: the dispatch above followed by the
driver-level blank check (blank prompt after a multi-digit action
triggers one more zero-input continue leg). -/
def stepLegs (action : String) (env : Nat → String) (k : Nat) : DispatchOut :=
  let d := dispatchLegs action env k
  if strTrim d.prompt = "" && isMultiDigit action then
    { legs := d.legs ++ [""], prompt := env (k + d.legs.length) }
  else d

/-- One entry of the driver's step history (the source entry also
duplicates the action under `response` and carries a wall-clock
timestamp; both are omitted). -/
structure HistEntry where
  step : Nat
  prompt : String
  action : String
  ivrResponse : String
  deriving DecidableEq

/-- The value `runAutomatedNavigation` returns on its non-error path. -/
structure NavResult where
  success : Bool
  steps : Nat
  history : List HistEntry
  deriving DecidableEq

/-- The main navigation loop of `IvrIntegration.runAutomatedNavigation`.
`qAct n` is the action extracted from the external AI's answer at step
`n`; `env` is the per-leg prompt oracle; `legC` counts legs already
performed; `fuel` is `20 - stepNo`, so the budget break at
`currentStep >= 20` always fires before fuel runs out when started with
fuel `20`. -/
def navLoop (qAct : Nat → String) (env : Nat → String) :
    Nat → Nat → Nat → String → List HistEntry → NavResult
  | 0, stepNo, _, _, hist => { success := true, steps := stepNo, history := hist }
  | fuel + 1, stepNo, legC, prompt, hist =>
      let step := stepNo + 1
      let action := qAct step
      if strLower action = "hang up" then
        { success := true
          steps := step
          history := hist ++ [⟨step, prompt, action, "Call ended"⟩] }
      else
        let d := stepLegs action env legC
        let hist2 := hist ++ [⟨step, prompt, action, d.prompt⟩]
        if 20 ≤ step then
          { success := true, steps := step, history := hist2 }
        else
          navLoop qAct env fuel step (legC + d.legs.length) d.prompt hist2

/-- `IvrIntegration.runAutomatedNavigation`, abstracted over the AI
answers, endpoint prompts and initial prompt (error-free path). -/
def runAutomatedNavigation (qAct : Nat → String) (env : Nat → String)
    (initialPrompt : String) : NavResult :=
  navLoop qAct env 20 0 0 initialPrompt []

/-! Helper lemmas shared by the claim theorems. -/

/-- `addToSet` always makes its argument a member. -/
lemma mem_addToSet (l : List IvrState) (x : IvrState) : x ∈ addToSet l x := by
  unfold addToSet
  by_cases h : x ∈ l <;> simp [h]

/-- `updateStateCore` records the new state in the discovered-state set
on every call, whichever branch runs. -/
lemma updateStateCore_discovered (s : Session) (ns : IvrState) :
    (updateStateCore s ns).1.discoveredStates = addToSet s.discoveredStates ns := by
  unfold updateStateCore
  by_cases h : ns = s.currentState
  · simp [h]
  · by_cases h2 : s.currentState = IvrState.unknown
    · simp only [h, h2]
      split <;> rfl
    · simp only [h, h2]
      split <;> rfl

/-- C6: recording the state the session is already in touches neither the
history nor the transition tally nor the current/previous state, and
signals no transition; transitions out of `unknown` are never tallied
even when the state changes. -/
theorem selfloop_frame_property (s : Session) :
    ((updateStateCore s s.currentState).1.stateHistory = s.stateHistory ∧
     (updateStateCore s s.currentState).1.stateTransitions = s.stateTransitions ∧
     (updateStateCore s s.currentState).1.currentState = s.currentState ∧
     (updateStateCore s s.currentState).1.previousState = s.previousState ∧
     (updateStateCore s s.currentState).2 = TransitionSignal.noChange) ∧
    (∀ ns, s.currentState = IvrState.unknown →
      (updateStateCore s ns).1.stateTransitions = s.stateTransitions) := by
  constructor
  · unfold updateStateCore
    simp
  · intro ns h
    unfold updateStateCore
    by_cases hne : ns = s.currentState
    · simp [hne]
    · simp only [hne, h]
      split <;> rfl

/-- Witness for the self-loop frame property at a concrete session. -/
theorem selfloop_frame_property_witness :
    (updateStateCore initialSession initialSession.currentState).1.stateHistory
        = initialSession.stateHistory ∧
    (updateStateCore initialSession IvrState.confirm_rx).1.stateTransitions
        = initialSession.stateTransitions :=
  ⟨(selfloop_frame_property initialSession).1.1,
   (selfloop_frame_property initialSession).2 IvrState.confirm_rx rfl⟩

/-- C5: an illegal transition is only signalled, never fatal: the session
is updated exactly as for a legal transition, with previous/current
updated, the new state appended to history, and the tally incremented. -/
theorem illegal_transition_nonfatal (s : Session) (ns : IvrState)
    (hne : ns ≠ s.currentState)
    (hinv : isValidTransition s.currentState ns = false) :
    (updateStateCore s ns).2 = TransitionSignal.illegal ∧
    (updateStateCore s ns).1.currentState = ns ∧
    (updateStateCore s ns).1.previousState = some s.currentState ∧
    (updateStateCore s ns).1.stateHistory = s.stateHistory ++ [ns] ∧
    (updateStateCore s ns).1.stateTransitions s.currentState ns
      = s.stateTransitions s.currentState ns + 1 := by
  have hcur : s.currentState ≠ IvrState.unknown := by
    intro h
    rw [isValidTransition, h] at hinv
    simp at hinv
  unfold updateStateCore
  simp [hne, hinv, hcur, bumpTally]

/-- Witness: a session sitting in `weekly_hours` (legal successors:
`main_menu` only) that records `confirm_rx` is flagged illegal yet fully
updated. -/
theorem illegal_transition_nonfatal_witness :
    (updateStateCore
      { currentState := .weekly_hours
        previousState := some .pharmacy_hours
        stateHistory := [.pharmacy_hours, .weekly_hours]
        stateTransitions := fun _ _ => 0
        discoveredStates := [.pharmacy_hours, .weekly_hours]
        discoveredPatterns := [] } IvrState.confirm_rx).2 = TransitionSignal.illegal ∧
    (updateStateCore
      { currentState := .weekly_hours
        previousState := some .pharmacy_hours
        stateHistory := [.pharmacy_hours, .weekly_hours]
        stateTransitions := fun _ _ => 0
        discoveredStates := [.pharmacy_hours, .weekly_hours]
        discoveredPatterns := [] } IvrState.confirm_rx).1.currentState = .confirm_rx ∧
    (updateStateCore
      { currentState := .weekly_hours
        previousState := some .pharmacy_hours
        stateHistory := [.pharmacy_hours, .weekly_hours]
        stateTransitions := fun _ _ => 0
        discoveredStates := [.pharmacy_hours, .weekly_hours]
        discoveredPatterns := [] } IvrState.confirm_rx).1.previousState
        = some .weekly_hours ∧
    (updateStateCore
      { currentState := .weekly_hours
        previousState := some .pharmacy_hours
        stateHistory := [.pharmacy_hours, .weekly_hours]
        stateTransitions := fun _ _ => 0
        discoveredStates := [.pharmacy_hours, .weekly_hours]
        discoveredPatterns := [] } IvrState.confirm_rx).1.stateHistory
        = [.pharmacy_hours, .weekly_hours, .confirm_rx] ∧
    (updateStateCore
      { currentState := .weekly_hours
        previousState := some .pharmacy_hours
        stateHistory := [.pharmacy_hours, .weekly_hours]
        stateTransitions := fun _ _ => 0
        discoveredStates := [.pharmacy_hours, .weekly_hours]
        discoveredPatterns := [] } IvrState.confirm_rx).1.stateTransitions
        .weekly_hours .confirm_rx = 1 :=
  illegal_transition_nonfatal _ IvrState.confirm_rx (by decide) (by decide)

/-- C7: scripted (normal) mode is a total per-state table; `unknown`
(the default branch) and the absorbing `transfer_to_pharmacy` state
return the empty wait input. -/
theorem scripted_policy_total (s : IvrState) (depth : Nat) :
    getNextAction s "normal" depth = normalAction s ∧
    (normalAction IvrState.unknown).input = "" ∧
    (normalAction IvrState.transfer_to_pharmacy).input = "" := by
  refine ⟨?_, rfl, rfl⟩
  simp [getNextAction]

/-- C8: exploratory mode is round-robin over the state's candidate list,
with the universal default list for states that declare none. -/
theorem exploration_round_robin (s : IvrState) (depth : Nat) :
    (getNextAction s "explore" depth).input
        = (dtmfOptionsFor s).getD (depth % (dtmfOptionsFor s).length) "" ∧
    (STATE_DTMF_OPTIONS s = none →
      dtmfOptionsFor s
        = ["1", "2", "3", "4", "5", "6", "7", "8", "9", "0", "*", "#"]) ∧
    (getNextAction IvrState.pharmacy_hours "explore" 0).input = "1" ∧
    (getNextAction IvrState.pharmacy_hours "explore" 1).input = "2" ∧
    (getNextAction IvrState.pharmacy_hours "explore" 2).input = "9" ∧
    (getNextAction IvrState.pharmacy_hours "explore" 3).input = "1" := by
  refine ⟨?_, ?_, by decide, by decide, by decide, by decide⟩
  · cases s <;> simp [getNextAction, dtmfOptionsFor, STATE_DTMF_OPTIONS]
  · intro h
    cases s <;> simp_all [dtmfOptionsFor, STATE_DTMF_OPTIONS]

/-- Witness for the exploration policy at `greeting`, a state without a
declared candidate list. -/
theorem exploration_round_robin_witness :
    (getNextAction IvrState.greeting "explore" 0).input
        = (dtmfOptionsFor IvrState.greeting).getD
            (0 % (dtmfOptionsFor IvrState.greeting).length) "" ∧
    dtmfOptionsFor IvrState.greeting
        = ["1", "2", "3", "4", "5", "6", "7", "8", "9", "0", "*", "#"] ∧
    (getNextAction IvrState.pharmacy_hours "explore" 3).input = "1" :=
  ⟨(exploration_round_robin IvrState.greeting 0).1,
   (exploration_round_robin IvrState.greeting 0).2.1 rfl,
   (exploration_round_robin IvrState.greeting 0).2.2.2.2.2⟩

/-- C10: every `updateState` call adds the identified state to the
discovered-state set, even on a self-loop; a first call classifying to
`unknown` yields a set containing `unknown` while the history is still
empty. -/
theorem discovered_states_added (s : Session) (text : String) :
    identifyState s.previousState s.discoveredPatterns text
        ∈ (updateState s text).1.discoveredStates ∧
    IvrState.unknown ∈ (updateState initialSession "").1.discoveredStates ∧
    (updateState initialSession "").1.stateHistory = [] := by
  refine ⟨?_, by decide, by decide⟩
  rw [updateState, updateStateCore_discovered]
  exact mem_addToSet _ _

/-- A map by a function that fixes every member is the identity. -/
lemma map_eq_self_of_mem {α : Type} (l : List α) (f : α → α)
    (h : ∀ e ∈ l, f e = e) : l.map f = l := by
  induction l with
  | nil => rfl
  | cons a t ih =>
      simp only [List.map_cons, h a (by simp)]
      rw [ih (fun e he => h e (by simp [he]))]

/-- In an association list with pairwise distinct keys, two entries with
the same key are the same entry. -/
lemma assoc_key_unique {β : Type} :
    ∀ (l : List (IvrState × β)), (l.map Prod.fst).Nodup →
      ∀ a ∈ l, ∀ b ∈ l, a.1 = b.1 → a = b := by
  intro l
  induction l with
  | nil =>
      intro _ a ha
      simp at ha
  | cons e t ih =>
      intro hnd a ha b hb hab
      simp only [List.map_cons, List.nodup_cons] at hnd
      rcases List.mem_cons.mp ha with rfl | ha' <;>
        rcases List.mem_cons.mp hb with rfl | hb'
      · rfl
      · exact absurd (hab ▸ List.mem_map_of_mem Prod.fst hb') hnd.1
      · exact absurd (hab ▸ List.mem_map_of_mem Prod.fst ha') hnd.1
      · exact ih hnd.2 a ha' b hb' hab

/-- Appending a fresh element keeps a list duplicate-free. -/
lemma nodup_append_singleton {α : Type} {l : List α} {a : α}
    (h : l.Nodup) (ha : a ∉ l) : (l ++ [a]).Nodup := by
  simp [List.nodup_append, h, ha]

/-- C9: registering an already-registered pattern is the identity on the
registry; registration preserves duplicate-freedom of every state's
pattern list; and registration never removes a registered pattern. -/
theorem add_pattern_idempotent (reg : List (IvrState × List String))
    (st : IvrState) (pat : String)
    (hkeys : (reg.map Prod.fst).Nodup) :
    (regMem reg st pat → addStatePattern reg st pat = reg) ∧
    ((∀ e ∈ reg, e.2.Nodup) → ∀ e ∈ addStatePattern reg st pat, e.2.Nodup) ∧
    (∀ st' pat', regMem reg st' pat' →
      regMem (addStatePattern reg st pat) st' pat') := by
  refine ⟨?_, ?_, ?_⟩
  · rintro ⟨l, hl, hpl⟩
    have hfind : ∃ e, reg.find? (fun e => e.1 == st) = some e := by
      have : (reg.find? (fun e => e.1 == st)).isSome := by
        rw [List.find?_isSome]
        exact ⟨(st, l), hl, by simp⟩
      exact Option.isSome_iff_exists.mp this
    obtain ⟨e0, he0⟩ := hfind
    have hreg1 : regLookup reg st = some e0.2 := by
      rw [regLookup, he0]
    rw [addStatePattern, hreg1]
    simp only
    apply map_eq_self_of_mem
    intro e he
    by_cases hk : e.1 = st
    · have : e = (st, l) := assoc_key_unique reg hkeys e he (st, l) hl (by simp [hk])
      subst this
      simp [hpl]
    · simp [hk]
  · intro hnd e he
    rw [addStatePattern] at he
    obtain ⟨e0, he0, rfl⟩ := List.mem_map.mp he
    have he0' : e0 ∈ reg ∨ e0 = (st, ([] : List String)) := by
      rcases h : regLookup reg st with _ | l0
      · rw [h] at he0
        simp only [List.mem_append, List.mem_singleton] at he0
        exact he0
      · rw [h] at he0
        exact Or.inl he0
    have hnd0 : e0.2.Nodup := by
      rcases he0' with h1 | rfl
      · exact hnd e0 h1
      · exact List.nodup_nil
    by_cases hk : e0.1 = st
    · by_cases hp : pat ∈ e0.2
      · simp [hk, hp, hnd0]
      · simp only [hk, if_pos rfl, if_neg hp]
        exact nodup_append_singleton hnd0 hp
    · simp [hk, hnd0]
  · rintro st' pat' ⟨l', hl', hpl'⟩
    rw [addStatePattern]
    have hmem1 : (st', l') ∈
        (match regLookup reg st with
          | some _ => reg
          | none => reg ++ [(st, ([] : List String))]) := by
      rcases regLookup reg st with _ | l0
      · exact List.mem_append_left _ hl'
      · exact hl'
    by_cases hk : st' = st
    · by_cases hp : pat ∈ l'
      · refine ⟨l', ?_, hpl'⟩
        have := List.mem_map_of_mem
          (fun e : IvrState × List String =>
            if e.1 = st then (e.1, if pat ∈ e.2 then e.2 else e.2 ++ [pat]) else e) hmem1
        simpa [hk, hp] using this
      · refine ⟨l' ++ [pat], ?_, List.mem_append_left _ hpl'⟩
        have := List.mem_map_of_mem
          (fun e : IvrState × List String =>
            if e.1 = st then (e.1, if pat ∈ e.2 then e.2 else e.2 ++ [pat]) else e) hmem1
        simpa [hk, hp] using this
    · refine ⟨l', ?_, hpl'⟩
      have := List.mem_map_of_mem
        (fun e : IvrState × List String =>
          if e.1 = st then (e.1, if pat ∈ e.2 then e.2 else e.2 ++ [pat]) else e) hmem1
      simpa [hk] using this

/-- Witness: re-registering a pattern already present for `main_menu`
leaves a concrete registry unchanged, and the pattern stays registered. -/
theorem add_pattern_idempotent_witness :
    addStatePattern [(IvrState.main_menu, ["acme pharmacy line"])]
        IvrState.main_menu "acme pharmacy line"
      = [(IvrState.main_menu, ["acme pharmacy line"])] ∧
    regMem (addStatePattern [(IvrState.main_menu, ["acme pharmacy line"])]
        IvrState.main_menu "acme pharmacy line")
      IvrState.main_menu "acme pharmacy line" :=
  ⟨(add_pattern_idempotent _ IvrState.main_menu "acme pharmacy line"
      (by decide)).1 ⟨["acme pharmacy line"], by simp, by simp⟩,
   (add_pattern_idempotent _ IvrState.main_menu "acme pharmacy line"
      (by decide)).2.2 IvrState.main_menu "acme pharmacy line"
      ⟨["acme pharmacy line"], by simp, by simp⟩⟩

/-- The pattern scan returns the entry at index `i` when some pattern of
that entry matches and no earlier entry has a matching pattern. -/
lemma scanTable_first (lt : String) :
    ∀ (tbl : List (IvrState × List String)) (i : Nat) (s : IvrState)
      (pats : List String),
      tbl.get? i = some (s, pats) →
      pats.any (fun p => strIncludes lt (strLower p)) = true →
      (∀ j, j < i →
        ((tbl.get? j).getD (IvrState.unknown, [])).2.any
          (fun p => strIncludes lt (strLower p)) = false) →
      scanTable lt tbl = some s := by
  intro tbl
  induction tbl with
  | nil =>
      intro i s pats h
      simp at h
  | cons hd rest ih =>
      intro i s pats hget hpat hhigher
      obtain ⟨s0, pats0⟩ := hd
      cases i with
      | zero =>
          rw [List.get?_cons_zero, Option.some_inj] at hget
          obtain ⟨rfl, rfl⟩ := Prod.mk.injEq .. ▸ hget
          simp [scanTable, hpat]
      | succ i' =>
          have h0 : pats0.any (fun p => strIncludes lt (strLower p)) = false := by
            have := hhigher 0 (Nat.succ_pos _)
            simpa using this
          rw [scanTable, if_neg (by simp [h0])]
          exact ih i' s pats (by simpa using hget) hpat
            (fun j hj => by simpa using hhigher (j + 1) (Nat.succ_lt_succ hj))

/-- C4: classification is first-match-wins in taxonomy declaration order:
a text containing a pattern of the state at table index `i`, no pattern
of an earlier entry and no special-case phrase resolving to another
state classifies to that state. -/
theorem classify_first_match (prev : Option IvrState)
    (discovered : List (IvrState × List String)) (t : String) (i : Nat)
    (s : IvrState) (pats : List String)
    (hentry : STATE_PATTERNS.get? i = some (s, pats))
    (ht : t ≠ "")
    (hpat : pats.any (fun p => strIncludes (strLower t) (strLower p)) = true)
    (hhigher : ∀ j, j < i →
      ((STATE_PATTERNS.get? j).getD (IvrState.unknown, [])).2.any
        (fun p => strIncludes (strLower t) (strLower p)) = false)
    (hspecial : specialCaseResult prev (strLower t) = none
      ∨ specialCaseResult prev (strLower t) = some s) :
    identifyState prev discovered t = s := by
  rw [identifyState, if_neg ht]
  simp only
  rcases hspecial with h | h
  · rw [h, scanTable_first (strLower t) STATE_PATTERNS i s pats hentry hpat hhigher]
  · rw [h]

/-- Witness: a weekly-hours prompt classifies to `weekly_hours` (table
index 6), no earlier entry or special case matching. -/
theorem classify_first_match_witness :
    identifyState none [] "Our normal business hours are Monday from 9"
      = IvrState.weekly_hours :=
  classify_first_match none [] "Our normal business hours are Monday from 9" 6
    IvrState.weekly_hours ["Our normal business hours", "Monday from", "Tuesday from"]
    rfl (by decide) (by decide) (by decide) (Or.inl (by decide))

/-- A multi-digit string is in particular all digits. -/
lemma isAllDigits_of_isMultiDigit {s : String} (h : isMultiDigit s = true) :
    isAllDigits s = true := by
  rw [isMultiDigit, Bool.and_eq_true, decide_eq_true_eq] at h
  rw [isAllDigits, Bool.and_eq_true, decide_eq_true_eq]
  exact ⟨Nat.le_trans (by omega) h.1, h.2⟩

/-- The dispatch of a multi-digit action: two legs carrying the first
character and the remaining characters, plus one zero-input continue
leg exactly when leg 2's prompt is blank. -/
lemma dispatchLegs_multi (action : String) (env : Nat → String) (k : Nat)
    (h : isMultiDigit action = true) :
    dispatchLegs action env k =
      if strTrim (env (k + 1)) = "" then
        ⟨[charAt0 action, strTail action, ""], env (k + 2)⟩
      else
        ⟨[charAt0 action, strTail action], env (k + 1)⟩ := by
  rw [dispatchLegs, isAllDigits_of_isMultiDigit h]
  simp [h]

/-- C2: blank-response recovery inside a multi-character dispatch is
bounded: a blank leg-2 prompt triggers exactly one zero-input continue
leg whose prompt becomes the dispatch result; if that prompt is also
blank, the blank prompt is returned with no further recovery leg inside
the dispatch. -/
theorem blank_recovery_bounded (action : String) (env : Nat → String) (k : Nat)
    (hmulti : isMultiDigit action = true)
    (hblank : strTrim (env (k + 1)) = "") :
    (dispatchLegs action env k).legs = [charAt0 action, strTail action, ""] ∧
    (dispatchLegs action env k).prompt = env (k + 2) ∧
    (strTrim (env (k + 2)) = "" →
      strTrim (dispatchLegs action env k).prompt = "" ∧
      (dispatchLegs action env k).legs.length = 3) := by
  rw [dispatchLegs_multi action env k hmulti, if_pos hblank]
  exact ⟨rfl, rfl, fun h => ⟨h, rfl⟩⟩

/-- Witness: dispatching `"12"` against an endpoint that stays blank
performs legs `"1"`, `"2"`, `""` and returns the blank prompt. -/
theorem blank_recovery_bounded_witness :
    (dispatchLegs "12" (fun _ => "") 0).legs = ["1", "2", ""] ∧
    (dispatchLegs "12" (fun _ => "") 0).prompt = "" ∧
    strTrim (dispatchLegs "12" (fun _ => "") 0).prompt = "" ∧
    (dispatchLegs "12" (fun _ => "") 0).legs.length = 3 := by
  have h := blank_recovery_bounded "12" (fun _ => "") 0 (by decide) (by decide)
  exact ⟨h.1, h.2.1, (h.2.2 (by decide)).1, (h.2.2 (by decide)).2⟩

/-- C1 as stated is false: the length-2 action `"*#"` is not split into
two legs; the non-DTMF fallback sends a single leg carrying only its
first character. -/
theorem dispatch_split_counterexample :
    2 ≤ ("*#" : String).length ∧
    (stepLegs "*#" (fun _ => "menu") 0).legs = ["*"] := by
  exact ⟨by decide, by decide⟩

/-- C1 amended: every all-digit action of length at least two is split
into leg 1 carrying the first character and leg 2 the remaining
characters, followed only by zero-input recovery legs; every action of
length at most one is sent as a single leg carrying that action. -/
theorem dispatch_split_amended (action : String) (env : Nat → String) (k : Nat) :
    (isAllDigits action = true → 2 ≤ action.length →
      ∃ rec, (stepLegs action env k).legs
          = charAt0 action :: strTail action :: rec ∧
        ∀ l ∈ rec, l = "") ∧
    (action.length ≤ 1 → (stepLegs action env k).legs = [action]) := by
  constructor
  · intro hdig hlen
    have hmulti : isMultiDigit action = true := by
      rw [isAllDigits, Bool.and_eq_true, decide_eq_true_eq] at hdig
      rw [isMultiDigit, Bool.and_eq_true, decide_eq_true_eq]
      exact ⟨hlen, hdig.2⟩
    rw [stepLegs]
    simp only [dispatchLegs_multi action env k hmulti, hmulti, Bool.and_true]
    by_cases h1 : strTrim (env (k + 1)) = ""
    · rw [if_pos h1]
      simp only
      by_cases h2 : strTrim (env (k + 2)) = ""
      · rw [if_pos (by simpa using h2)]
        exact ⟨["", ""], by simp, by simp⟩
      · rw [if_neg (by simpa using h2)]
        exact ⟨[""], by simp, by simp⟩
    · rw [if_neg h1]
      simp only
      rw [if_neg (by simpa using h1)]
      exact ⟨[], by simp, by simp⟩
  · intro hlen
    obtain ⟨cs⟩ := action
    match cs, hlen with
    | [], _ =>
        have hc : (isAllDigits (String.mk []) ||
            String.mk [] == "*" || String.mk [] == "#") = false := by decide
        rw [stepLegs, dispatchLegs, hc]
        simp only [Bool.false_eq_true, if_false]
        have hrun : firstDigitRun (String.mk []) = none := by decide
        rw [hrun]
        simp [isMultiDigit]
        decide
    | [c], _ =>
        by_cases hd : isDigitChar c
        · have h1 : (isAllDigits (String.mk [c]) ||
              String.mk [c] == "*" || String.mk [c] == "#") = true := by
            simp [isAllDigits, hd, String.length]
          have h2 : isMultiDigit (String.mk [c]) = false := by
            simp [isMultiDigit, String.length]
          rw [stepLegs, dispatchLegs, h1]
          simp [h2]
        · by_cases hstar : c = '*'
          · subst hstar
            rw [stepLegs, dispatchLegs]
            have h1 : (isAllDigits (String.mk ['*']) ||
                String.mk ['*'] == "*" || String.mk ['*'] == "#") = true := by decide
            rw [h1]
            simp only [if_true]
            have h2 : isMultiDigit (String.mk ['*']) = false := by decide
            rw [h2]
            simp
          · by_cases hhash : c = '#'
            · subst hhash
              rw [stepLegs, dispatchLegs]
              have h1 : (isAllDigits (String.mk ['#']) ||
                  String.mk ['#'] == "*" || String.mk ['#'] == "#") = true := by decide
              rw [h1]
              simp only [if_true]
              have h2 : isMultiDigit (String.mk ['#']) = false := by decide
              rw [h2]
              simp
            · have h1 : (isAllDigits (String.mk [c]) ||
                  String.mk [c] == "*" || String.mk [c] == "#") = false := by
                have hs : (String.mk [c] == "*") = false := by
                  rw [beq_eq_false_iff_ne]
                  intro he
                  apply hstar
                  have hd2 := congrArg String.data he
                  simpa using hd2
                have hh : (String.mk [c] == "#") = false := by
                  rw [beq_eq_false_iff_ne]
                  intro he
                  apply hhash
                  have hd2 := congrArg String.data he
                  simpa using hd2
                simp [isAllDigits, hd, hs, hh, String.length]
              rw [stepLegs, dispatchLegs, h1]
              simp only [Bool.false_eq_true, if_false]
              have hrun : firstDigitRun (String.mk [c]) = none := by
                rw [firstDigitRun]
                simp [hd]
              rw [hrun]
              have h2 : isMultiDigit (String.mk [c]) = false := by
                simp [isMultiDigit, String.length]
              simp [h2, charAt0]

/-- Witness: `"1234"` splits into legs `"1"` then `"234"`, and the
single-character action `"5"` is sent as one leg. -/
theorem dispatch_split_amended_witness :
    (∃ rec, (stepLegs "1234" (fun _ => "ok") 0).legs
        = charAt0 "1234" :: strTail "1234" :: rec ∧ ∀ l ∈ rec, l = "") ∧
    (stepLegs "5" (fun _ => "ok") 0).legs = ["5"] :=
  ⟨(dispatch_split_amended "1234" (fun _ => "ok") 0).1 (by decide) (by decide),
   (dispatch_split_amended "5" (fun _ => "ok") 0).2 (by decide)⟩

/-- When no step's action is the hang-up sentinel, the navigation loop
runs its remaining budget to step 20 and returns `success := true` with
one history entry appended per executed step. -/
lemma navLoop_budget (qAct env : Nat → String) :
    ∀ (fuel stepNo legC : Nat) (prompt : String) (hist : List HistEntry),
      stepNo + fuel = 20 →
      (∀ n, stepNo < n → n ≤ 20 → strLower (qAct n) ≠ "hang up") →
      ∃ l, navLoop qAct env fuel stepNo legC prompt hist
          = { success := true, steps := 20, history := hist ++ l } ∧
        l.length = fuel := by
  intro fuel
  induction fuel with
  | zero =>
      intro stepNo legC prompt hist h20 _
      have hs : stepNo = 20 := by omega
      subst hs
      exact ⟨[], by simp [navLoop], rfl⟩
  | succ fuel ih =>
      intro stepNo legC prompt hist h20 hq
      have hq1 : strLower (qAct (stepNo + 1)) ≠ "hang up" :=
        hq (stepNo + 1) (by omega) (by omega)
      rw [navLoop, if_neg hq1]
      by_cases hstop : 20 ≤ stepNo + 1
      · have hs : stepNo = 19 := by omega
        subst hs
        rw [if_pos hstop]
        refine ⟨[⟨20, prompt, qAct 20,
          (stepLegs (qAct 20) env legC).prompt⟩], by simp, ?_⟩
        simp only [List.length_singleton]
        omega
      · rw [if_neg hstop]
        obtain ⟨l, heq, hlen⟩ := ih (stepNo + 1)
          (legC + (stepLegs (qAct (stepNo + 1)) env legC).legs.length)
          (stepLegs (qAct (stepNo + 1)) env legC).prompt
          (hist ++ [⟨stepNo + 1, prompt, qAct (stepNo + 1),
            (stepLegs (qAct (stepNo + 1)) env legC).prompt⟩])
          (by omega) (fun n h1 h2 => hq n (by omega) h2)
        refine ⟨⟨stepNo + 1, prompt, qAct (stepNo + 1),
          (stepLegs (qAct (stepNo + 1)) env legC).prompt⟩ :: l, ?_, by simp [hlen]⟩
        rw [heq]
        simp

/-- C3 as stated is false: stopping on the step budget does not yield a
result marked incomplete — the driver returns the very same
`success := true` flag as a hang-up termination (the result object has
no completed/incomplete marker at all). -/
theorem budget_result_counterexample :
    (runAutomatedNavigation (fun _ => "1") (fun _ => "menu") "hello").success
        = true ∧
    (runAutomatedNavigation (fun _ => "1") (fun _ => "menu") "hello").steps
        = 20 := by
  exact ⟨by decide, by decide⟩

/-- C3 amended: reaching the step budget is not an error: the driver
returns normally with `success = true`, `steps = 20` and the full
history of all 20 executed steps. -/
theorem budget_exhaustion_result (qAct env : Nat → String) (initialPrompt : String)
    (h : ∀ n, 1 ≤ n → n ≤ 20 → strLower (qAct n) ≠ "hang up") :
    (runAutomatedNavigation qAct env initialPrompt).success = true ∧
    (runAutomatedNavigation qAct env initialPrompt).steps = 20 ∧
    (runAutomatedNavigation qAct env initialPrompt).history.length = 20 := by
  obtain ⟨l, heq, hlen⟩ := navLoop_budget qAct env 20 0 0 initialPrompt []
    (by omega) (fun n h1 h2 => h n (by omega) h2)
  rw [runAutomatedNavigation, heq]
  simp [hlen]

/-- Witness: a run whose AI answer is always `"1"` exhausts the budget
and returns success with a 20-entry history. -/
theorem budget_exhaustion_result_witness :
    (runAutomatedNavigation (fun _ => "1") (fun _ => "m") "hi").success = true ∧
    (runAutomatedNavigation (fun _ => "1") (fun _ => "m") "hi").steps = 20 ∧
    (runAutomatedNavigation (fun _ => "1") (fun _ => "m") "hi").history.length
        = 20 :=
  budget_exhaustion_result (fun _ => "1") (fun _ => "m") "hi"
    (fun n h1 h2 => by
      show strLower "1" ≠ "hang up"
      decide)

end IvrAutomation
